import Mathlib

/-!
Verification of the unit-converter engine: a shallow embedding of the
conversion catalog and engine (src/utils.py) and of the history-updating
callback (src/app.py), with theorems settling the specified properties.
Numeric values are embedded as exact rationals.
-/

namespace UnitConverter

/-- One category of the unit catalog: its display name, its ordered list of
unit identifiers, its symbol and its color, as in CONVERSION_CATEGORIES of
src/utils.py. -/
structure Category where
  name : String
  units : List String
  symbol : String
  color : String
deriving DecidableEq, Repr

/-- The ten categories of CONVERSION_CATEGORIES in src/utils.py, in source
order, with their exact unit lists. -/
def CONVERSION_CATEGORIES : List Category := [
  { name := "Length",
    units := ["meter", "kilometer", "centimeter", "millimeter", "mile", "yard", "foot", "inch"],
    symbol := "📏", color := "#FF5757" },
  { name := "Mass",
    units := ["gram", "kilogram", "milligram", "pound", "ounce", "ton"],
    symbol := "⚖️", color := "#4CAF50" },
  { name := "Volume",
    units := ["liter", "milliliter", "cubic_meter", "gallon", "quart", "pint", "cup", "fluid_ounce"],
    symbol := "🧪", color := "#2196F3" },
  { name := "Temperature",
    units := ["kelvin", "celsius", "fahrenheit"],
    symbol := "🌡️", color := "#FF9800" },
  { name := "Time",
    units := ["second", "minute", "hour", "day", "week", "month", "year"],
    symbol := "⏱️", color := "#9C27B0" },
  { name := "Speed",
    units := ["meter_per_second", "kilometer_per_hour", "mile_per_hour", "knot"],
    symbol := "🚀", color := "#607D8B" },
  { name := "Area",
    units := ["square_meter", "square_kilometer", "hectare", "acre", "square_foot", "square_inch"],
    symbol := "📐", color := "#795548" },
  { name := "Data",
    units := ["bit", "byte", "kilobyte", "megabyte", "gigabyte", "terabyte"],
    symbol := "💾", color := "#00BCD4" },
  { name := "Energy",
    units := ["joule", "kilojoule", "calorie", "kilocalorie", "watt_hour", "kilowatt_hour"],
    symbol := "⚡", color := "#FFEB3B" },
  { name := "Pressure",
    units := ["pascal", "kilopascal", "bar", "atmosphere", "psi"],
    symbol := "🔄", color := "#3F51B5" }
]

/-- The CONVERSION_FACTORS table of src/utils.py: unit identifier → factor to
the category base unit, with the exact source values as rationals. -/
def CONVERSION_FACTORS : List (String × ℚ) := [
  ("meter", 1.0), ("kilometer", 1000.0), ("centimeter", 0.01), ("millimeter", 0.001),
  ("mile", 1609.344), ("yard", 0.9144), ("foot", 0.3048), ("inch", 0.0254),
  ("gram", 1.0), ("kilogram", 1000.0), ("milligram", 0.001), ("pound", 453.59237),
  ("ounce", 28.349523125), ("ton", 1000000.0),
  ("liter", 1.0), ("milliliter", 0.001), ("cubic_meter", 1000.0), ("gallon", 3.78541178),
  ("quart", 0.946352946), ("pint", 0.473176473), ("cup", 0.2365882365),
  ("fluid_ounce", 0.0295735296875),
  ("second", 1.0), ("minute", 60.0), ("hour", 3600.0), ("day", 86400.0),
  ("week", 604800.0), ("month", 2592000.0), ("year", 31536000.0),
  ("meter_per_second", 1.0), ("kilometer_per_hour", 0.277778), ("mile_per_hour", 0.44704),
  ("knot", 0.514444),
  ("square_meter", 1.0), ("square_kilometer", 1000000.0), ("hectare", 10000.0),
  ("acre", 4046.8564224), ("square_foot", 0.09290304), ("square_inch", 0.00064516),
  ("bit", 0.125), ("byte", 1.0), ("kilobyte", 1024.0), ("megabyte", 1048576.0),
  ("gigabyte", 1073741824.0), ("terabyte", 1099511627776.0),
  ("joule", 1.0), ("kilojoule", 1000.0), ("calorie", 4.184), ("kilocalorie", 4184.0),
  ("watt_hour", 3600.0), ("kilowatt_hour", 3600000.0),
  ("pascal", 1.0), ("kilopascal", 1000.0), ("bar", 100000.0), ("atmosphere", 101325.0),
  ("psi", 6894.76)
]

/-- The inline temperature-unit list of convert_unit in src/utils.py. -/
def tempUnits : List String := ["celsius", "fahrenheit", "kelvin"]

/-- The typed failure of the engine: a unit identifier missing from the
factor table (the KeyError raised by a dictionary miss in the source). -/
inductive ConvError where
  | unknownUnit
deriving DecidableEq, Repr

/-- Association-list lookup, embedding the Python dictionary access
CONVERSION_FACTORS[u] (a miss is none). -/
def lookupFactor : List (String × ℚ) → String → Option ℚ
  | [], _ => none
  | (k, v) :: rest, u => if u = k then some v else lookupFactor rest u

/-- The body of the try-block of convert_unit in src/utils.py: temperature
path when both units are temperature units, otherwise the factor path, with
a table miss as a typed failure. -/
def convert_unit_core (value : ℚ) (from_unit to_unit : String) : Except ConvError ℚ :=
  if from_unit ∈ tempUnits ∧ to_unit ∈ tempUnits then
    let kelvin_value : ℚ :=
      if from_unit = "celsius" then value + 273.15
      else if from_unit = "fahrenheit" then (value - 32) * 5/9 + 273.15
      else value
    if to_unit = "celsius" then Except.ok (kelvin_value - 273.15)
    else if to_unit = "fahrenheit" then Except.ok ((kelvin_value - 273.15) * 9/5 + 32)
    else Except.ok kelvin_value
  else
    match lookupFactor CONVERSION_FACTORS from_unit with
    | none => Except.error ConvError.unknownUnit
    | some f_from =>
      match lookupFactor CONVERSION_FACTORS to_unit with
      | none => Except.error ConvError.unknownUnit
      | some f_to => Except.ok (value * f_from / f_to)

/-- convert_unit of src/utils.py as the caller sees it: the except-handler
catches any failure of the try-block and returns 0.0. -/
def convert_unit (value : ℚ) (from_unit to_unit : String) : ℚ :=
  match convert_unit_core value from_unit to_unit with
  | Except.ok r => r
  | Except.error _ => 0

/-- One entry of the conversion history, as built by update_result in
src/app.py. -/
structure ConversionRecord where
  timestamp : String
  category : String
  from_value : ℚ
  from_unit : String
  to_value : ℚ
  to_unit : String
deriving DecidableEq, Repr

/-- The history step of update_result in src/app.py: append the record, then
keep only the last 10 entries when the length exceeds 10. -/
def appendRecord (history : List ConversionRecord) (r : ConversionRecord) :
    List ConversionRecord :=
  if 10 < (history ++ [r]).length then
    (history ++ [r]).drop ((history ++ [r]).length - 10)
  else history ++ [r]

/-- The session-state variables of src/app.py that update_result reads and
writes. -/
structure SessionState where
  current_category : String
  input_value : ℚ
  from_unit : String
  to_unit : String
  result : ℚ
  conversion_history : List ConversionRecord
deriving Repr

/-- update_result of src/app.py: convert the current input value, store the
result, and append a record of the conversion to the bounded history. -/
def update_result (timestamp : String) (s : SessionState) : SessionState :=
  let value := s.input_value
  let result := convert_unit value s.from_unit s.to_unit
  { s with
    result := result,
    conversion_history := appendRecord s.conversion_history
      { timestamp := timestamp, category := s.current_category,
        from_value := value, from_unit := s.from_unit,
        to_value := result, to_unit := s.to_unit } }

/-- Normalization to kelvin following the words of the spec: celsius →
value + 273.15; fahrenheit → (value − 32) × 5/9 + 273.15; kelvin →
value unchanged. -/
def specTempNormalize (u : String) (value : ℚ) : ℚ :=
  if u = "celsius" then value + 273.15
  else if u = "fahrenheit" then (value - 32) * 5/9 + 273.15
  else value

/-- Denormalization from kelvin following the words of the spec: celsius →
kelvin − 273.15; fahrenheit → (kelvin − 273.15) × 9/5 + 32; kelvin →
unchanged. -/
def specTempDenormalize (u : String) (kelvin : ℚ) : ℚ :=
  if u = "celsius" then kelvin - 273.15
  else if u = "fahrenheit" then (kelvin - 273.15) * 9/5 + 32
  else kelvin

/-- All unit identifiers of the catalog, in category order. -/
def allCatalogUnits : List String := (CONVERSION_CATEGORIES.map Category.units).flatten

/-! Basic facts about the factor table. -/

lemma lookupFactor_mem : ∀ {l : List (String × ℚ)} {u : String} {f : ℚ},
    lookupFactor l u = some f → (u, f) ∈ l := by
  intro l
  induction l with
  | nil =>
    intro u f h
    exact absurd h (by simp [lookupFactor])
  | cons p rest ih =>
    intro u f h
    obtain ⟨k, v⟩ := p
    simp only [lookupFactor] at h
    split at h
    · next hk =>
      injection h with hh
      subst hk
      subst hh
      exact List.mem_cons_self _ _
    · next hk =>
      exact List.mem_cons_of_mem _ (ih h)

lemma factors_pos : ∀ p ∈ CONVERSION_FACTORS, 0 < p.2 := by
  intro p hp
  fin_cases hp <;> norm_num

lemma lookupFactor_pos {u : String} {f : ℚ}
    (h : lookupFactor CONVERSION_FACTORS u = some f) : 0 < f :=
  factors_pos (u, f) (lookupFactor_mem h)

lemma tempUnits_lookup_none : ∀ u ∈ tempUnits,
    lookupFactor CONVERSION_FACTORS u = none := by decide

lemma lookup_not_temp {u : String} {f : ℚ}
    (h : lookupFactor CONVERSION_FACTORS u = some f) : u ∉ tempUnits := by
  intro hm
  rw [tempUnits_lookup_none u hm] at h
  exact Option.noConfusion h

lemma catalog_cover : ∀ u ∈ allCatalogUnits,
    u ∈ tempUnits ∨ (lookupFactor CONVERSION_FACTORS u).isSome := by decide

lemma linear_category_cover : ∀ c ∈ CONVERSION_CATEGORIES, c.name = "Temperature" ∨
    ∀ u ∈ c.units, (lookupFactor CONVERSION_FACTORS u).isSome := by decide

/-! Evaluation lemmas for the two paths of the engine. -/

lemma core_temp_eval (x : ℚ) (fu tu : String) (h1 : fu ∈ tempUnits) (h2 : tu ∈ tempUnits) :
    convert_unit_core x fu tu =
      Except.ok (specTempDenormalize tu (specTempNormalize fu x)) := by
  unfold convert_unit_core specTempNormalize specTempDenormalize
  rw [if_pos ⟨h1, h2⟩]
  split_ifs <;> rfl

lemma core_linear_eval (x f g : ℚ) (fu tu : String)
    (hf : lookupFactor CONVERSION_FACTORS fu = some f)
    (hg : lookupFactor CONVERSION_FACTORS tu = some g) :
    convert_unit_core x fu tu = Except.ok (x * f / g) := by
  unfold convert_unit_core
  rw [if_neg (fun hc => lookup_not_temp hf hc.1), hf, hg]

lemma specTempNormalize_celsius (x : ℚ) : specTempNormalize "celsius" x = x + 273.15 := rfl

lemma specTempNormalize_fahrenheit (x : ℚ) :
    specTempNormalize "fahrenheit" x = (x - 32) * 5/9 + 273.15 := rfl

lemma specTempNormalize_kelvin (x : ℚ) : specTempNormalize "kelvin" x = x := rfl

lemma specTempDenormalize_celsius (k : ℚ) : specTempDenormalize "celsius" k = k - 273.15 := rfl

lemma specTempDenormalize_fahrenheit (k : ℚ) :
    specTempDenormalize "fahrenheit" k = (k - 273.15) * 9/5 + 32 := rfl

lemma specTempDenormalize_kelvin (k : ℚ) : specTempDenormalize "kelvin" k = k := rfl

/-! Lemmas about the bounded history. -/

lemma appendRecord_length (h : List ConversionRecord) (r : ConversionRecord) :
    (appendRecord h r).length ≤ 10 := by
  unfold appendRecord
  split
  · next hc => simp at hc ⊢; omega
  · next hc => simp at hc ⊢; omega

lemma appendRecord_eq_drop (h : List ConversionRecord) (r : ConversionRecord) :
    appendRecord h r = (h ++ [r]).drop ((h ++ [r]).length - 10) := by
  unfold appendRecord
  split
  · rfl
  · next hc =>
    simp at hc
    rw [Nat.sub_eq_zero_of_le (by simp; omega), List.drop_zero]

lemma foldl_appendRecord (rs : List ConversionRecord) :
    ∀ h : List ConversionRecord, h.length ≤ 10 →
      List.foldl appendRecord h rs = (h ++ rs).drop ((h ++ rs).length - 10) := by
  induction rs with
  | nil =>
    intro h hh
    simp [Nat.sub_eq_zero_of_le hh]
  | cons r rs ih =>
    intro h hh
    rw [List.foldl_cons, ih _ (appendRecord_length h r), appendRecord_eq_drop]
    have hd : (h ++ [r]).length - 10 ≤ (h ++ [r]).length := Nat.sub_le _ _
    rw [← List.drop_append_of_le_length hd, List.drop_drop]
    rw [List.append_assoc, List.singleton_append]
    congr 1
    simp [List.length_drop]
    omega

/-- A sample record used to instantiate history statements. -/
def sampleRecord : ConversionRecord :=
  { timestamp := "2023-01-01 00:00:00", category := "Length",
    from_value := 1, from_unit := "meter", to_value := 0.001, to_unit := "kilometer" }

/-- C1: for every pair of units that both have entries in the conversion-factor
table, the engine returns value * factor(fromUnit) / factor(toUnit): the value
is scaled to the category base unit and then divided by the target factor. -/
theorem convert_linear_factor_law (value f_from f_to : ℚ) (from_unit to_unit : String)
    (hf : lookupFactor CONVERSION_FACTORS from_unit = some f_from)
    (hg : lookupFactor CONVERSION_FACTORS to_unit = some f_to) :
    convert_unit_core value from_unit to_unit = Except.ok (value * f_from / f_to) :=
  core_linear_eval value f_from f_to from_unit to_unit hf hg

/-- Witness for C1 at convert(2, kilometer, meter). -/
theorem convert_linear_factor_law_witness :
    convert_unit_core 2 "kilometer" "meter" = Except.ok (2 * 1000.0 / 1.0) :=
  convert_linear_factor_law 2 1000.0 1.0 "kilometer" "meter" (by rfl) (by rfl)

/-- C2: for every pair of temperature units, the engine equals the composition
of the spec's normalization to kelvin with the spec's denormalization from
kelvin. -/
theorem convert_temperature_composition (value : ℚ) (from_unit to_unit : String)
    (h1 : from_unit ∈ tempUnits) (h2 : to_unit ∈ tempUnits) :
    convert_unit_core value from_unit to_unit =
      Except.ok (specTempDenormalize to_unit (specTempNormalize from_unit value)) :=
  core_temp_eval value from_unit to_unit h1 h2

/-- Witness for C2 at convert(5, celsius, fahrenheit). -/
theorem convert_temperature_composition_witness :
    convert_unit_core 5 "celsius" "fahrenheit" =
      Except.ok (specTempDenormalize "fahrenheit" (specTempNormalize "celsius" 5)) :=
  convert_temperature_composition 5 "celsius" "fahrenheit" (by decide) (by decide)

/-- C3: at convert(1, furlong, meter) the try-block fails with the typed
unknown-unit error, but the except-handler of the source swallows it and
returns the default numeric value 0.0 to the caller, contradicting the claim
that no default is ever substituted. -/
theorem convert_unknown_unit_returns_default :
    convert_unit_core 1 "furlong" "meter" = Except.error ConvError.unknownUnit ∧
      convert_unit 1 "furlong" "meter" = 0 :=
  ⟨rfl, rfl⟩

/-- C4: converting any catalog unit to itself, temperature units included, is
the exact identity. -/
theorem convert_self_identity (x : ℚ) (u : String) (hu : u ∈ allCatalogUnits) :
    convert_unit_core x u u = Except.ok x ∧ convert_unit x u u = x := by
  have hcore : convert_unit_core x u u = Except.ok x := by
    rcases catalog_cover u hu with htemp | hsome
    · rw [core_temp_eval x u u htemp htemp]
      have hu3 : u = "celsius" ∨ u = "fahrenheit" ∨ u = "kelvin" := by
        simpa [tempUnits] using htemp
      rcases hu3 with rfl | rfl | rfl
      · rw [specTempNormalize_celsius, specTempDenormalize_celsius]
        simp only [Except.ok.injEq]
        ring
      · rw [specTempNormalize_fahrenheit, specTempDenormalize_fahrenheit]
        simp only [Except.ok.injEq]
        ring
      · rw [specTempNormalize_kelvin, specTempDenormalize_kelvin]
    · obtain ⟨f, hf⟩ := Option.isSome_iff_exists.mp hsome
      have hne : f ≠ 0 := ne_of_gt (lookupFactor_pos hf)
      rw [core_linear_eval x f f u u hf hf]
      rw [mul_div_assoc, div_self hne, mul_one]
  refine ⟨hcore, ?_⟩
  unfold convert_unit
  rw [hcore]

/-- Witness for C4 at convert(7, meter, meter). -/
theorem convert_self_identity_witness :
    convert_unit_core 7 "meter" "meter" = Except.ok 7 ∧ convert_unit 7 "meter" "meter" = 7 :=
  convert_self_identity 7 "meter" (by decide)

/-- C5: for linear units u, v of one same category, the round trip
convert(convert(x,u,v),v,u) returns x, in particular within the claimed
relative tolerance of one part in a billion. -/
theorem convert_round_trip (x : ℚ) (c : Category) (hc : c ∈ CONVERSION_CATEGORIES)
    (hct : c.name ≠ "Temperature") (u v : String) (hu : u ∈ c.units) (hv : v ∈ c.units) :
    convert_unit (convert_unit x u v) v u = x ∧
      |convert_unit (convert_unit x u v) v u - x| ≤ |x| / 1000000000 := by
  rcases linear_category_cover c hc with hname | hall
  · exact absurd hname hct
  obtain ⟨fu, hfu⟩ := Option.isSome_iff_exists.mp (hall u hu)
  obtain ⟨fv, hfv⟩ := Option.isSome_iff_exists.mp (hall v hv)
  have hfu0 : fu ≠ 0 := ne_of_gt (lookupFactor_pos hfu)
  have hfv0 : fv ≠ 0 := ne_of_gt (lookupFactor_pos hfv)
  have e1 : convert_unit x u v = x * fu / fv := by
    unfold convert_unit
    rw [core_linear_eval x fu fv u v hfu hfv]
  have e2 : convert_unit (x * fu / fv) v u = x * fu / fv * fv / fu := by
    unfold convert_unit
    rw [core_linear_eval (x * fu / fv) fv fu v u hfv hfu]
  have e3 : x * fu / fv * fv / fu = x := by field_simp
  rw [e1, e2, e3]
  refine ⟨rfl, ?_⟩
  rw [sub_self, abs_zero]
  positivity

/-- Witness for C5 at convert(5, meter, kilometer) and back. -/
theorem convert_round_trip_witness :
    convert_unit (convert_unit 5 "meter" "kilometer") "kilometer" "meter" = 5 ∧
      |convert_unit (convert_unit 5 "meter" "kilometer") "kilometer" "meter" - 5| ≤
        |(5 : ℚ)| / 1000000000 :=
  convert_round_trip 5
    { name := "Length",
      units := ["meter", "kilometer", "centimeter", "millimeter", "mile", "yard", "foot", "inch"],
      symbol := "📏", color := "#FF5757" }
    (by decide) (by decide) "meter" "kilometer" (by decide) (by decide)

/-- C6: the history never exceeds 10 records after an append, and appending 15
records to an empty history leaves exactly the last 10, in original order. -/
theorem history_capacity_fifo :
    (∀ (h : List ConversionRecord) (r : ConversionRecord), (appendRecord h r).length ≤ 10) ∧
      ∀ rs : List ConversionRecord, rs.length = 15 →
        List.foldl appendRecord [] rs = rs.drop 5 := by
  refine ⟨appendRecord_length, ?_⟩
  intro rs hrs
  rw [foldl_appendRecord rs [] (by simp)]
  simp [hrs]

/-- Witness for C6 with 15 copies of a sample record. -/
theorem history_capacity_fifo_witness :
    (appendRecord [] sampleRecord).length ≤ 10 ∧
      List.foldl appendRecord [] (List.replicate 15 sampleRecord) =
        (List.replicate 15 sampleRecord).drop 5 :=
  ⟨history_capacity_fifo.1 [] sampleRecord,
    history_capacity_fifo.2 (List.replicate 15 sampleRecord) rfl⟩

/-- C7: when exactly one of the two units is a temperature unit, the engine
takes the linear factor path, the table lookup misses, and the conversion
fails with the unknown-unit error. -/
theorem convert_mixed_temperature_unknown (value : ℚ) (from_unit to_unit : String)
    (h : (from_unit ∈ tempUnits ∧ to_unit ∉ tempUnits) ∨
      (from_unit ∉ tempUnits ∧ to_unit ∈ tempUnits)) :
    convert_unit_core value from_unit to_unit = Except.error ConvError.unknownUnit := by
  rcases h with ⟨h1, h2⟩ | ⟨h1, h2⟩
  · unfold convert_unit_core
    rw [if_neg (fun hc => h2 hc.2), tempUnits_lookup_none from_unit h1]
  · unfold convert_unit_core
    rw [if_neg (fun hc => h1 hc.1)]
    cases hl : lookupFactor CONVERSION_FACTORS from_unit with
    | none => rfl
    | some f => rw [tempUnits_lookup_none to_unit h2]

/-- Witness for C7 at convert(1, celsius, meter). -/
theorem convert_mixed_temperature_unknown_witness :
    convert_unit_core 1 "celsius" "meter" = Except.error ConvError.unknownUnit :=
  convert_mixed_temperature_unknown 1 "celsius" "meter" (Or.inl ⟨by decide, by decide⟩)

/-- C8: the temperature fixed points hold exactly: 0 celsius is 32 fahrenheit,
100 celsius is 212 fahrenheit, and 0 celsius is 273.15 kelvin. -/
theorem temperature_fixed_points :
    convert_unit_core 0 "celsius" "fahrenheit" = Except.ok 32 ∧
      convert_unit_core 100 "celsius" "fahrenheit" = Except.ok 212 ∧
        convert_unit_core 0 "celsius" "kelvin" = Except.ok 273.15 := by
  refine ⟨?_, ?_, ?_⟩
  · rw [core_temp_eval 0 "celsius" "fahrenheit" (by decide) (by decide),
      specTempNormalize_celsius, specTempDenormalize_fahrenheit]
    simp only [Except.ok.injEq]
    norm_num
  · rw [core_temp_eval 100 "celsius" "fahrenheit" (by decide) (by decide),
      specTempNormalize_celsius, specTempDenormalize_fahrenheit]
    simp only [Except.ok.injEq]
    norm_num
  · rw [core_temp_eval 0 "celsius" "kelvin" (by decide) (by decide),
      specTempNormalize_celsius, specTempDenormalize_kelvin]
    simp only [Except.ok.injEq]
    norm_num

/-- C9: when the conversion of the entered value fails, update_result of the
source still appends a record to the history, holding the substituted default
result 0.0, so the history does not stay unchanged as the claim requires. -/
theorem update_result_appends_default_record :
    convert_unit_core 1 "furlong" "meter" = Except.error ConvError.unknownUnit ∧
      (update_result "t"
        { current_category := "Length", input_value := 1, from_unit := "furlong",
          to_unit := "meter", result := 0, conversion_history := [] }).conversion_history =
        [{ timestamp := "t", category := "Length", from_value := 1, from_unit := "furlong",
           to_value := 0, to_unit := "meter" }] :=
  ⟨rfl, rfl⟩

/-- C10: every factor-table entry is strictly positive, and every catalog unit
other than the temperature units has an entry whose factor is positive, so the
division by factor(toUnit) never divides by zero. -/
theorem factors_positive_and_cover :
    (∀ p ∈ CONVERSION_FACTORS, 0 < p.2) ∧
      ∀ c ∈ CONVERSION_CATEGORIES, ∀ u ∈ c.units, u ∉ tempUnits →
        lookupFactor CONVERSION_FACTORS u ≠ none ∧
          ∀ f, lookupFactor CONVERSION_FACTORS u = some f → 0 < f := by
  refine ⟨factors_pos, ?_⟩
  intro c hc u hu hnt
  have humem : u ∈ allCatalogUnits := by
    unfold allCatalogUnits
    rw [List.mem_flatten]
    exact ⟨c.units, List.mem_map_of_mem Category.units hc, hu⟩
  rcases catalog_cover u humem with ht | hs
  · exact absurd ht hnt
  constructor
  · intro hnone
    rw [hnone] at hs
    simp at hs
  · intro f hf
    exact lookupFactor_pos hf

/-- Witness for C10 at the meter entry. -/
theorem factors_positive_and_cover_witness :
    0 < (("meter", (1.0 : ℚ))).2 ∧
      (lookupFactor CONVERSION_FACTORS "meter" ≠ none ∧ 0 < (1.0 : ℚ)) :=
  ⟨factors_positive_and_cover.1 ("meter", (1.0 : ℚ))
      (show ("meter", (1.0 : ℚ)) ∈ CONVERSION_FACTORS from List.mem_cons_self _ _),
    (factors_positive_and_cover.2
        { name := "Length",
          units := ["meter", "kilometer", "centimeter", "millimeter", "mile", "yard", "foot", "inch"],
          symbol := "📏", color := "#FF5757" }
        (by decide) "meter" (by decide) (by decide)).1,
    (factors_positive_and_cover.2
        { name := "Length",
          units := ["meter", "kilometer", "centimeter", "millimeter", "mile", "yard", "foot", "inch"],
          symbol := "📏", color := "#FF5757" }
        (by decide) "meter" (by decide) (by decide)).2 1.0 (by rfl)⟩

end UnitConverter
